import Mathlib

/-!
Verification of the bugprone PassLogParamsCheck clang-tidy check
(clang-tools-extra/clang-tidy/bugprone/PassLogParamsCheck.cpp).

The development shallowly embeds the two analysis stages of the check:
the format-string scanning loops of PassLogParamsCheck::check and the
per-argument compatibility function PassLogParamsCheck::checkArgumentType,
together with the cross-call accumulator ArgCStrRemovals used by the
redundant c_str removal pass and the allow-list construction performed in
the constructor.  Argument static types are modelled as a record of the
type-query results the source consults (integer/enumeral/unsigned/
floating/char/pointer classification, pointee char-ness, record qualified
name, bit width).
-/

namespace PassLogParams

/-- Model of the static type of a call argument: the record of answers to
the clang type queries that PassLogParamsCheck.cpp performs on
Arg->getType().  The width field models Context->getTypeSize(ArgType). -/
structure ArgType where
  isIntegerType : Bool := false
  isEnumeralType : Bool := false
  isUnsignedIntegerType : Bool := false
  isRealFloatingType : Bool := false
  isCharType : Bool := false
  isPointerType : Bool := false
  pointeeIsCharType : Bool := false
  recordQualifiedName : Option String := none
  width : Nat := 0
deriving DecidableEq, Repr

/-- Body of PassLogParamsCheck::checkArgumentType after the specifier
string has been split into LengthMod and BaseSpec (source lines 206-273):
the switch on BaseSpec with the width tables for integer and floating
conversions. -/
def checkArgumentTypeCore (argType : ArgType) (lengthMod : List Char)
    (baseSpec : Char) : Bool :=
  if baseSpec == 'u' || baseSpec == 'd' || baseSpec == 'i' then
    if !argType.isIntegerType && !argType.isEnumeralType then false
    else if baseSpec == 'u' && !argType.isUnsignedIntegerType then false
    else if baseSpec != 'u' && argType.isUnsignedIntegerType then false
    else if lengthMod == ['h', 'h'] then argType.width == 8
    else if lengthMod == ['h'] then argType.width == 16
    else if lengthMod == ['l'] then argType.width == 32
    else if lengthMod == ['l', 'l'] || lengthMod == ['z'] then
      argType.width == 64
    else argType.width == 32
  else if baseSpec == 'f' || baseSpec == 'F' || baseSpec == 'g' ||
      baseSpec == 'G' || baseSpec == 'e' || baseSpec == 'E' then
    if !argType.isRealFloatingType then false
    else if lengthMod == ['l'] then argType.width == 64
    else argType.width == 32
  else if baseSpec == 'c' then
    if !argType.isCharType && !argType.isIntegerType then false
    else argType.width == 8
  else if baseSpec == 's' then
    if argType.isPointerType then argType.pointeeIsCharType
    else
      match argType.recordQualifiedName with
      | some name => name == "std::basic_string" || name == "std::string"
      | none => false
  else if baseSpec == 'p' then argType.isPointerType
  else true

/-- PassLogParamsCheck::checkArgumentType (source lines 194-274): the
complete specifier text (length modifier followed by base character) is
split into BaseSpec = FormatSpecifier.back() and LengthMod =
FormatSpecifier.drop_back() (empty when the specifier is a single
character), then dispatched to the switch. -/
def checkArgumentType (argType : ArgType) (formatSpecifier : List Char) :
    Bool :=
  checkArgumentTypeCore argType formatSpecifier.dropLast
    (formatSpecifier.getLastD ' ')

/-- Predicate of the first inner scan of the specifier walk (source lines
108-113): flag, width and precision bytes that are skipped before the
length modifier. -/
def isFlagChar (c : Char) : Bool :=
  c.isDigit || c == '.' || c == '+' || c == '-' || c == ' ' || c == '#'

/-- Predicate of the second inner scan of the specifier walk (source lines
117-122): the bytes recognised as length-modifier characters. -/
def isLengthChar (c : Char) : Bool :=
  c == 'h' || c == 'l' || c == 'j' || c == 'z' || c == 't' || c == 'L'

/-- Inner while loops of the specifier walk: starting at index i, advance
while the byte satisfies p and the index is in range, returning the first
index that stops the scan.  The fuel argument bounds the recursion; any
fuel of at least s.length is sufficient since the index only grows. -/
def skipWhileFrom (p : Char → Bool) (s : List Char) : Nat → Nat → Nat
  | 0, i => i
  | fuel + 1, i =>
    if h : i < s.length then
      if p (s.get ⟨i, h⟩) then skipWhileFrom p s fuel (i + 1) else i
    else i

/-- Specifier-walking loop of PassLogParamsCheck::check (source lines
96-143), restricted to the specifier texts it produces: starting at
position pos, scan for a non-escaped percent, skip flag/width/precision
bytes, consume the length-modifier run, and if a base character is still
in range emit the complete specifier (length modifier plus base
character).  A percent pair consumes both bytes and emits nothing; a scan
that runs off the end of the string emits nothing.  The fuel bounds the
recursion; s.length + 1 steps always suffice because the position strictly
increases on every iteration. -/
def checkSpecLoop (s : List Char) : Nat → Nat → List (List Char)
  | 0, _ => []
  | fuel + 1, pos =>
    if h : pos < s.length then
      if s.get ⟨pos, h⟩ = '%' ∧ pos + 1 < s.length then
        if s.getD (pos + 1) ' ' = '%' then
          checkSpecLoop s fuel (pos + 2)
        else
          let lengthStart := skipWhileFrom isFlagChar s s.length (pos + 1)
          let specPos := skipWhileFrom isLengthChar s s.length lengthStart
          if specPos < s.length then
            ((s.drop lengthStart).take (specPos - lengthStart + 1)) ::
              checkSpecLoop s fuel (specPos + 1)
          else checkSpecLoop s fuel (specPos + 1)
      else checkSpecLoop s fuel (pos + 1)
    else []

/-- Ordered sequence of complete specifier texts the walk of
PassLogParamsCheck::check emits for a format literal, each later paired
positionally with the call argument at index 1 + k. -/
def parseEmittedSpecs (s : List Char) : List (List Char) :=
  checkSpecLoop s (s.length + 1) 0

/-- Specifier-counting loop of PassLogParamsCheck::check (source lines
89-93): FormatSpecifiers is incremented at every position holding a
percent byte that is followed by at least one more byte and whose
follower is not a percent byte.  No position is ever skipped. -/
def countFormatSpecifiers (s : List Char) : Nat :=
  (List.range s.length).countP fun pos =>
    s.getD pos ' ' == '%' && decide (pos + 1 < s.length) &&
      s.getD (pos + 1) ' ' != '%'

/-- Diagnostics PassLogParamsCheck::check can emit, carrying the data the
source interpolates into the message: the argument type spelling and
specifier text for a type mismatch (source lines 132-135), the two counts
for a count mismatch (source lines 148-150), and the matched candidate for
an unnecessary c_str removal (source lines 160-164, identified here by the
candidate id recorded when it was pushed). -/
inductive Diag where
  | typeMismatch (typeName : String) (spec : List Char)
  | countMismatch (required provided : Nat)
  | unnecessaryCStr (id : Nat)
deriving DecidableEq, Repr

/-- Recognises the count-mismatch diagnostic form. -/
def Diag.isCountMismatch : Diag → Bool
  | countMismatch _ _ => true
  | _ => false

/-- Model of a payload call argument (a call argument after the format
string): its static type, the type spelling used in diagnostics
(Arg->getType().getAsString()), and, when the lazily built scrubber
matcher of findArgCStrRemoval matches inside the argument, the id of the
matched c_str call candidate. -/
structure Arg where
  type : ArgType
  typeName : String
  cstrMatch : Option Nat := none
deriving DecidableEq, Repr

/-- Model of a matched log-like call: the byte content of the string
literal in argument position 0 and the payload arguments at positions
1 onward. -/
structure CallInfo where
  formatStr : List Char
  payload : List Arg
deriving DecidableEq, Repr

/-- Per-specifier type checking performed inside the walk (source lines
129-136): the k-th emitted specifier is checked against the call argument
at index 1 + k exactly when that index is in range, and a diagnostic is
emitted when checkArgumentType rejects the pair.  The zip realises both
the positional pairing and the in-range guard. -/
def typeMismatchDiags (specs : List (List Char)) (payload : List Arg) :
    List Diag :=
  (specs.zip payload).filterMap fun sa =>
    if checkArgumentType sa.2.type sa.1 then none
    else some (Diag.typeMismatch sa.2.typeName sa.1)

/-- PassLogParamsCheck::check (source lines 80-166) as a state-passing
function.  The state is the content of the member vector ArgCStrRemovals,
which the source never clears: findArgCStrRemoval appends one candidate
per matching payload argument (line 190), and the removal loop at lines
159-165 then emits one diagnostic per element of the whole accumulated
vector.  The diagnostics of one invocation are the type mismatches of the
specifier walk, then the count-mismatch diagnostic when the payload count
differs from the counting loop value, then the c_str removal
diagnostics. -/
def check (argCStrRemovals : List Nat) (call : CallInfo) :
    List Nat × List Diag :=
  let formatSpecifiers := countFormatSpecifiers call.formatStr
  let tmDiags := typeMismatchDiags (parseEmittedSpecs call.formatStr)
    call.payload
  let numArgs := call.payload.length
  let countDiags :=
    if numArgs = formatSpecifiers then []
    else [Diag.countMismatch formatSpecifiers numArgs]
  let newRemovals := argCStrRemovals ++ call.payload.filterMap Arg.cstrMatch
  (newRemovals, tmDiags ++ countDiags ++ newRemovals.map Diag.unnecessaryCStr)

/-- Default allow-list string of the check (source lines 41-49), byte for
byte. -/
def DefaultLogLikeFunctions : String :=
  "log::trace;log::debug;log::info;log::warning;log::warn;log::error;log::critical;log::fatal;log::tracef;log::debugf;log::infof;log::warningf;log::warnf;log::errorf;log::criticalf;log::fatalf;Log::trace;Log::debug;Log::info;Log::warning;Log::warn;Log::error;Log::critical;Log::fatal;Log::tracef;Log::debugf;Log::infof;Log::warningf;Log::warnf;Log::errorf;Log::criticalf;Log::fatalf"

/-- Splits a character list at semicolon separators, accumulating the
current entry in reverse; helper for the spec-model of parseStringList. -/
def splitOnSemicolons : List Char → List Char → List (List Char)
  | [], acc => [acc.reverse]
  | c :: rest, acc =>
    if c = ';' then acc.reverse :: splitOnSemicolons rest []
    else splitOnSemicolons rest (c :: acc)

/-- Modelled from the spec: utils::options::parseStringList
(clang-tidy/utils/OptionsUtils.cpp is not under src/); the spec describes
the option as the semicolon-separated allow-list of log-like function
qualified names, so the model splits the option value on semicolons and
drops empty entries. -/
def parseStringList (s : String) : List (List Char) :=
  (splitOnSemicolons s.toList []).filter fun entry => entry ≠ []

/-- Constructor of PassLogParamsCheck (source lines 51-61):
StrLogLikeFunctions is initialised from the configured LogLikeFunctions
option when present (Options.getLocalOrGlobal falls back to
DefaultLogLikeFunctions when the option is absent), and when the parsed
list comes out empty it is replaced by the parse of the default list. -/
def passLogParamsCheckConstructor (configuredOption : Option String) :
    List (List Char) :=
  let strLogLikeFunctions :=
    parseStringList (configuredOption.getD DefaultLogLikeFunctions)
  if strLogLikeFunctions.isEmpty then parseStringList DefaultLogLikeFunctions
  else strLogLikeFunctions

/-- Width table of the integer branch of checkArgumentType (source lines
223-232), expressed as a function of the length modifier. -/
def intWidthOfLengthMod (lengthMod : List Char) : Nat :=
  if lengthMod == ['h', 'h'] then 8
  else if lengthMod == ['h'] then 16
  else if lengthMod == ['l'] then 32
  else if lengthMod == ['l', 'l'] || lengthMod == ['z'] then 64
  else 32

/-- Concrete argument type standing for a 32-bit signed int. -/
def int32Arg : ArgType := { isIntegerType := true, width := 32 }

/-- Concrete argument type standing for a 32-bit float. -/
def float32Arg : ArgType := { isRealFloatingType := true, width := 32 }

/-- Concrete argument type standing for a std::string value. -/
def stdStringArg : ArgType :=
  { recordQualifiedName := some "std::string", width := 64 }

/-- Concrete call whose single payload argument contains a match of the
c_str scrubber matcher (candidate id 0): the model of a call such as
log with format "Str: %s" applied to str.c_str(). -/
def cstrCall : CallInfo :=
  ⟨"Str: %s".toList,
   [⟨{ isPointerType := true, pointeeIsCharType := true, width := 64 },
     "const char *", some 0⟩]⟩

/-- Splitting a complete specifier into its length modifier and base
character agrees with appending: checkArgumentType on lengthMod ++ [base]
dispatches to the switch body with exactly those two components. -/
theorem checkArgumentType_concat (argType : ArgType) (lengthMod : List Char)
    (baseSpec : Char) :
    checkArgumentType argType (lengthMod ++ [baseSpec]) =
      checkArgumentTypeCore argType lengthMod baseSpec := by
  simp [checkArgumentType, List.dropLast_concat, List.getLastD_concat]

/-- Claim C1: for a specifier with base character d, i or u whose length
modifier is one of the tabulated ones, checkArgumentType accepts the
argument exactly when it is of integer or enumeral type, its signedness
matches the base character (u requires an unsigned integer type, d and i
reject an unsigned integer type), and its bit width equals the table
value: 8 for hh, 16 for h, 32 for no modifier, 32 for l, 64 for ll or
z. -/
theorem checkArgumentType_int_widthTable (t : ArgType) (lengthMod : List Char)
    (baseSpec : Char)
    (hb : baseSpec = 'd' ∨ baseSpec = 'i' ∨ baseSpec = 'u')
    (hlm : lengthMod = [] ∨ lengthMod = ['h', 'h'] ∨ lengthMod = ['h'] ∨
      lengthMod = ['l'] ∨ lengthMod = ['l', 'l'] ∨ lengthMod = ['z']) :
    checkArgumentType t (lengthMod ++ [baseSpec]) = true ↔
      ((t.isIntegerType = true ∨ t.isEnumeralType = true) ∧
       (if baseSpec = 'u' then t.isUnsignedIntegerType = true
        else t.isUnsignedIntegerType = false) ∧
       t.width = intWidthOfLengthMod lengthMod) := by
  rw [checkArgumentType_concat]
  rcases t with ⟨i, e, u, fl, c, p, pc, rn, w⟩
  rcases hb with rfl | rfl | rfl <;>
    rcases hlm with rfl | rfl | rfl | rfl | rfl | rfl <;>
    cases i <;> cases e <;> cases u <;>
    simp [checkArgumentTypeCore, intWidthOfLengthMod]

/-- Witness for claim C1: a 32-bit signed integer argument against the
specifier ld, with the hypotheses discharged at that concrete input. -/
theorem checkArgumentType_int_widthTable_witness :
    checkArgumentType int32Arg (['l'] ++ ['d']) = true ↔
      ((int32Arg.isIntegerType = true ∨ int32Arg.isEnumeralType = true) ∧
       (if ('d' : Char) = 'u' then int32Arg.isUnsignedIntegerType = true
        else int32Arg.isUnsignedIntegerType = false) ∧
       int32Arg.width = intWidthOfLengthMod ['l']) :=
  checkArgumentType_int_widthTable int32Arg ['l'] 'd' (Or.inl rfl)
    (by decide)

/-- Every diagnostic produced by the per-specifier type checking is a
type-mismatch diagnostic, never a count mismatch. -/
theorem typeMismatchDiags_not_countMismatch (specs : List (List Char))
    (payload : List Arg) :
    ∀ d ∈ typeMismatchDiags specs payload, d.isCountMismatch = false := by
  intro d hd
  simp only [typeMismatchDiags, List.mem_filterMap] at hd
  obtain ⟨sa, _, hfa⟩ := hd
  split at hfa
  · exact absurd hfa (by simp)
  · cases hfa
    rfl

/-- Every diagnostic produced by the removal pass is an unnecessary c_str
diagnostic, never a count mismatch. -/
theorem cstrDiags_not_countMismatch (removals : List Nat) :
    ∀ d ∈ removals.map Diag.unnecessaryCStr, d.isCountMismatch = false := by
  intro d hd
  simp only [List.mem_map] at hd
  obtain ⟨n, _, rfl⟩ := hd
  rfl

/-- Claim C2: per call, exactly one count-mismatch diagnostic citing the
specifier count and the payload count is emitted precisely when the two
numbers differ; the literal containing one s-specifier called with zero
payload arguments yields exactly the diagnostic with required 1 and
provided 0 and no type-mismatch diagnostic; and a literal counting zero
specifiers called with a nonempty payload still gets the count-mismatch
diagnostic. -/
theorem check_countMismatch_spec :
    (∀ st call,
      ((check st call).2.countP (fun d => Diag.isCountMismatch d) =
        if call.payload.length = countFormatSpecifiers call.formatStr then 0
        else 1) ∧
      (Diag.countMismatch (countFormatSpecifiers call.formatStr)
          call.payload.length ∈ (check st call).2 ↔
        call.payload.length ≠ countFormatSpecifiers call.formatStr)) ∧
    check [] ⟨"Test: %s".toList, []⟩ = ([], [Diag.countMismatch 1 0]) ∧
    (∀ st call, countFormatSpecifiers call.formatStr = 0 →
      call.payload.length ≠ 0 →
      Diag.countMismatch 0 call.payload.length ∈ (check st call).2) := by
  have hmain : ∀ st call,
      ((check st call).2.countP (fun d => Diag.isCountMismatch d) =
        if call.payload.length = countFormatSpecifiers call.formatStr then 0
        else 1) ∧
      (Diag.countMismatch (countFormatSpecifiers call.formatStr)
          call.payload.length ∈ (check st call).2 ↔
        call.payload.length ≠ countFormatSpecifiers call.formatStr) := by
    intro st call
    constructor
    · simp only [check, List.countP_append]
      have h1 : (typeMismatchDiags (parseEmittedSpecs call.formatStr)
          call.payload).countP (fun d => Diag.isCountMismatch d) = 0 := by
        rw [List.countP_eq_zero]
        intro d hd
        simpa using typeMismatchDiags_not_countMismatch _ _ d hd
      have h2 : ((st ++ call.payload.filterMap Arg.cstrMatch).map
          Diag.unnecessaryCStr).countP (fun d => Diag.isCountMismatch d)
          = 0 := by
        rw [List.countP_eq_zero]
        intro d hd
        simpa using cstrDiags_not_countMismatch _ d hd
      rw [h1, h2]
      split
      · simp
      · simp [Diag.isCountMismatch]
    · simp only [check, List.mem_append]
      constructor
      · rintro (((hmem | hmem) | hmem))
        · have := typeMismatchDiags_not_countMismatch _ _ _ hmem
          simp [Diag.isCountMismatch] at this
        · intro heq
          rw [if_pos heq] at hmem
          simp at hmem
        · have := cstrDiags_not_countMismatch _ _ hmem
          simp [Diag.isCountMismatch] at this
      · intro hne
        left; right
        rw [if_neg hne]
        simp
  refine ⟨hmain, by decide, ?_⟩
  intro st call h0 hne
  have := (hmain st call).2.mpr (by rw [h0]; exact hne)
  rwa [h0] at this

/-- Witness for claim C2: a literal with zero counted specifiers and one
payload argument receives the count-mismatch diagnostic citing 0 and 1. -/
theorem check_countMismatch_spec_witness :
    Diag.countMismatch 0 1 ∈
      (check [] ⟨"abc".toList, [⟨int32Arg, "int", none⟩]⟩).2 :=
  check_countMismatch_spec.2.2 []
    ⟨"abc".toList, [⟨int32Arg, "int", none⟩]⟩ (by decide) (by decide)

/-- Claim C3 is refuted by this evaluation: because the member vector
ArgCStrRemovals is never cleared, a second invocation of check on the
same unchanged call site emits the c_str removal diagnostic twice, so the
diagnostic sequences of the two runs are not identical and the
diagnostics of a call depend on previously inspected calls. -/
theorem check_second_run_differs :
    (check [] cstrCall).2 = [Diag.unnecessaryCStr 0] ∧
    (check (check [] cstrCall).1 cstrCall).2 =
      [Diag.unnecessaryCStr 0, Diag.unnecessaryCStr 0] ∧
    (check (check [] cstrCall).1 cstrCall).2 ≠ (check [] cstrCall).2 := by
  refine ⟨by decide, by decide, by decide⟩

/-- Claim C4 is refuted in its counting part by this evaluation: for the
literal consisting of 100, an escaped percent pair and the word done, the
specifier walk emits no specifier, yet the counting loop counts the
second percent of the pair (it is followed by a space) and the call with
zero payload arguments receives a count-mismatch diagnostic requiring 1
argument. -/
theorem escapedPercent_still_counted :
    parseEmittedSpecs "100%% done".toList = [] ∧
    countFormatSpecifiers "100%% done".toList = 1 ∧
    (check [] ⟨"100%% done".toList, []⟩).2 = [Diag.countMismatch 1 0] := by
  refine ⟨by decide, by decide, by decide⟩

/-- Claim C5: for a specifier with base character f, F, g, G, e or E and
length modifier absent or l, checkArgumentType accepts the argument
exactly when it is of real floating type and its bit width is 32 without
modifier and 64 with modifier l. -/
theorem checkArgumentType_float_widthTable (t : ArgType) (lengthMod : List Char)
    (baseSpec : Char)
    (hb : baseSpec = 'f' ∨ baseSpec = 'F' ∨ baseSpec = 'g' ∨
      baseSpec = 'G' ∨ baseSpec = 'e' ∨ baseSpec = 'E')
    (hlm : lengthMod = [] ∨ lengthMod = ['l']) :
    checkArgumentType t (lengthMod ++ [baseSpec]) = true ↔
      (t.isRealFloatingType = true ∧
       t.width = if lengthMod = ['l'] then 64 else 32) := by
  rw [checkArgumentType_concat]
  rcases t with ⟨i, e, u, fl, c, p, pc, rn, w⟩
  rcases hb with rfl | rfl | rfl | rfl | rfl | rfl <;>
    rcases hlm with rfl | rfl <;>
    cases fl <;>
    simp [checkArgumentTypeCore]

/-- Witness for claim C5: a 32-bit floating argument against the plain f
specifier, with the hypotheses discharged at that concrete input. -/
theorem checkArgumentType_float_widthTable_witness :
    checkArgumentType float32Arg ([] ++ ['f']) = true ↔
      (float32Arg.isRealFloatingType = true ∧
       float32Arg.width = if ([] : List Char) = ['l'] then 64 else 32) :=
  checkArgumentType_float_widthTable float32Arg [] 'f' (Or.inl rfl)
    (Or.inl rfl)

/-- Claim C6: for the s specifier, checkArgumentType accepts the argument
exactly when it is a pointer whose pointee is a character type or a value
of the recognized string-like record type (qualified name
std::basic_string or std::string); moreover a value that is neither of
integer nor of enumeral type, such as a string-like value, is a mismatch
against the d specifier.  The hypothesis records the clang invariant that
a pointer type has no record declaration. -/
theorem checkArgumentType_string_spec (t : ArgType)
    (hwf : t.isPointerType = true → t.recordQualifiedName = none) :
    (checkArgumentType t ['s'] = true ↔
      ((t.isPointerType = true ∧ t.pointeeIsCharType = true) ∨
       t.recordQualifiedName = some "std::basic_string" ∨
       t.recordQualifiedName = some "std::string")) ∧
    (t.isIntegerType = false → t.isEnumeralType = false →
      checkArgumentType t ['d'] = false) := by
  rcases t with ⟨i, e, u, fl, c, p, pc, rn, w⟩
  constructor
  · cases p
    · simp only [checkArgumentType, checkArgumentTypeCore]
      cases rn with
      | none => simp
      | some name => simp
    · have hrn := hwf rfl
      simp only at hrn
      subst hrn
      simp [checkArgumentType, checkArgumentTypeCore]
  · intro hi he
    simp only at hi he
    subst hi; subst he
    simp [checkArgumentType, checkArgumentTypeCore]

/-- Witness for claim C6: a std::string value is accepted by the s
specifier and rejected by the d specifier. -/
theorem checkArgumentType_string_spec_witness :
    (checkArgumentType stdStringArg ['s'] = true ↔
      ((stdStringArg.isPointerType = true ∧
        stdStringArg.pointeeIsCharType = true) ∨
       stdStringArg.recordQualifiedName = some "std::basic_string" ∨
       stdStringArg.recordQualifiedName = some "std::string")) ∧
    (stdStringArg.isIntegerType = false → stdStringArg.isEnumeralType = false →
      checkArgumentType stdStringArg ['d'] = false) :=
  checkArgumentType_string_spec stdStringArg (by decide)

/-- Claim C7 is refuted in its counting part by this evaluation: a
dangling percent run that reaches the end of the literal before a base
character emits no specifier and is never type-checked, and a bare
trailing percent is not counted, but a trailing run with at least one
byte after the percent (here percent followed by l) is counted by the
counting loop, so a call with zero payload arguments receives a
count-mismatch diagnostic requiring 1 argument. -/
theorem danglingSpecifier_still_counted :
    parseEmittedSpecs "abc%l".toList = [] ∧
    countFormatSpecifiers "abc%l".toList = 1 ∧
    parseEmittedSpecs "abc%".toList = [] ∧
    countFormatSpecifiers "abc%".toList = 0 ∧
    (check [] ⟨"abc%l".toList, []⟩).2 = [Diag.countMismatch 1 0] := by
  refine ⟨by decide, by decide, by decide, by decide, by decide⟩

/-- Claim C8: a specifier whose base character is none of d, i, u, f, F,
g, G, e, E, c, s, p is accepted for every argument type: the switch falls
through to the fail-open default, so an unrecognized base character never
produces a type-mismatch diagnostic. -/
theorem checkArgumentType_unrecognized_failOpen (t : ArgType)
    (lengthMod : List Char) (baseSpec : Char)
    (hb : baseSpec ∉
      (['d', 'i', 'u', 'f', 'F', 'g', 'G', 'e', 'E', 'c', 's', 'p'] :
        List Char)) :
    checkArgumentType t (lengthMod ++ [baseSpec]) = true := by
  rw [checkArgumentType_concat]
  simp only [List.mem_cons, List.not_mem_nil, or_false, not_or] at hb
  obtain ⟨h1, h2, h3, h4, h5, h6, h7, h8, h9, h10, h11, h12⟩ := hb
  simp [checkArgumentTypeCore, h1, h2, h3, h4, h5, h6, h7, h8, h9, h10, h11,
    h12]

/-- Witness for claim C8: the x specifier (a case the source leaves
commented out) accepts a 32-bit integer argument. -/
theorem checkArgumentType_unrecognized_failOpen_witness :
    checkArgumentType int32Arg ([] ++ ['x']) = true :=
  checkArgumentType_unrecognized_failOpen int32Arg [] 'x' (by decide)

/-- Claim C9: when the configured LogLikeFunctions option parses to an
empty list, the constructor falls back to the parse of the fixed default
allow-list string, which is nonempty, so the check is not disabled. -/
theorem constructor_emptyParse_fallback (configuredOption : Option String)
    (h : parseStringList (configuredOption.getD DefaultLogLikeFunctions) = []) :
    passLogParamsCheckConstructor configuredOption =
      parseStringList DefaultLogLikeFunctions ∧
    passLogParamsCheckConstructor configuredOption ≠ [] := by
  constructor
  · simp [passLogParamsCheckConstructor, h]
  · simp only [passLogParamsCheckConstructor, h]
    decide

/-- Witness for claim C9: the empty option string parses to the empty
list and the constructor then yields the nonempty default allow-list. -/
theorem constructor_emptyParse_fallback_witness :
    parseStringList ((some "").getD DefaultLogLikeFunctions) = [] ∧
    (passLogParamsCheckConstructor (some "") =
        parseStringList DefaultLogLikeFunctions ∧
      passLogParamsCheckConstructor (some "") ≠ []) :=
  ⟨by decide, constructor_emptyParse_fallback (some "") (by decide)⟩

/-- Claim C10: a d, i or u specifier whose length modifier is not exactly
hh, h, l, ll or z falls through to the no-modifier rule and requires a
32-bit argument, and an f, F, g, G, e or E specifier whose modifier is
not exactly l likewise requires a 32-bit argument, the other acceptance
conditions being unchanged. -/
theorem checkArgumentType_otherModifier_default32 (t : ArgType)
    (lengthMod : List Char) :
    ((lengthMod ≠ ['h', 'h'] ∧ lengthMod ≠ ['h'] ∧ lengthMod ≠ ['l'] ∧
        lengthMod ≠ ['l', 'l'] ∧ lengthMod ≠ ['z']) →
      ∀ baseSpec, (baseSpec = 'd' ∨ baseSpec = 'i' ∨ baseSpec = 'u') →
      (checkArgumentType t (lengthMod ++ [baseSpec]) = true ↔
        ((t.isIntegerType = true ∨ t.isEnumeralType = true) ∧
         (if baseSpec = 'u' then t.isUnsignedIntegerType = true
          else t.isUnsignedIntegerType = false) ∧
         t.width = 32))) ∧
    (lengthMod ≠ ['l'] →
      ∀ baseSpec, (baseSpec = 'f' ∨ baseSpec = 'F' ∨ baseSpec = 'g' ∨
        baseSpec = 'G' ∨ baseSpec = 'e' ∨ baseSpec = 'E') →
      (checkArgumentType t (lengthMod ++ [baseSpec]) = true ↔
        (t.isRealFloatingType = true ∧ t.width = 32))) := by
  rcases t with ⟨i, e, u, fl, c, p, pc, rn, w⟩
  constructor
  · rintro ⟨n1, n2, n3, n4, n5⟩ baseSpec hb
    rw [checkArgumentType_concat]
    rcases hb with rfl | rfl | rfl <;>
      cases i <;> cases e <;> cases u <;>
      simp [checkArgumentTypeCore, n1, n2, n3, n4, n5]
  · intro n3 baseSpec hb
    rw [checkArgumentType_concat]
    rcases hb with rfl | rfl | rfl | rfl | rfl | rfl <;>
      cases fl <;>
      simp [checkArgumentTypeCore, n3]

/-- Witness for claim C10: with the untabulated modifier j, the d
specifier requires a 32-bit integer, and with the modifier ll, which the
floating chain does not tabulate, the f specifier requires a 32-bit
floating argument, shown at concrete argument types. -/
theorem checkArgumentType_otherModifier_default32_witness :
    (checkArgumentType int32Arg (['j'] ++ ['d']) = true ↔
      ((int32Arg.isIntegerType = true ∨ int32Arg.isEnumeralType = true) ∧
       (if ('d' : Char) = 'u' then int32Arg.isUnsignedIntegerType = true
        else int32Arg.isUnsignedIntegerType = false) ∧
       int32Arg.width = 32)) ∧
    (checkArgumentType float32Arg (['l', 'l'] ++ ['f']) = true ↔
      (float32Arg.isRealFloatingType = true ∧ float32Arg.width = 32)) :=
  ⟨(checkArgumentType_otherModifier_default32 int32Arg ['j']).1
      (by decide) 'd' (Or.inl rfl),
   (checkArgumentType_otherModifier_default32 float32Arg ['l', 'l']).2
      (by decide) 'f' (Or.inl rfl)⟩

end PassLogParams
